import Mathlib

/-!
Shallow embedding of the smart-agri-backend command/telemetry server.

The embedding follows `src/server.js` (the consolidated server) for the
HTTP handlers `GET /get-commands/:deviceId`, `POST /update` and
`POST /send-command`, together with the per-command timeout callback armed
by `/send-command`.  The command-completion report path does not exist in
`server.js`; it is embedded from the `socket.on('commandCompleted')`
handler of the 2.3.x variant (src/unnamed/part_003, lines 793-810).

JavaScript timestamps (`Date.now()`, `new Date().toISOString()`) are
modelled as a `Nat` number of milliseconds passed explicitly to every
operation.  JSON objects whose fields may be absent are modelled with
`Option` fields; the schema-less sensor payload is an association list of
metric name to integer value (JS booleans as 0/1).
-/

namespace SmartAgri

/-- Status enumeration COMMAND_STATUS of the source. -/
inductive CommandStatus where
  | pending
  | completed
  | failed
  | timeout
deriving DecidableEq, Repr

/-- The closed command-kind enumeration COMMAND_TYPES (values of the JS object). -/
def COMMAND_TYPES : List String :=
  ["light_on", "light_off", "water_plant", "add_nutrients",
   "water_pump", "fert_pump", "led"]

/-- The kinds `[LIGHT_ON, WATER_PUMP, FERT_PUMP, LED]` that default the
command value to 1 (used both in `/send-command` and in the formatting
step of `/get-commands`). -/
def ON_KINDS : List String := ["light_on", "water_pump", "fert_pump", "led"]

/-- A schema-less sensor payload: metric name to numeric value
(JS booleans modelled as 0/1). -/
abbrev SensorPayload := List (String × Int)

/-- The `data.ledStatus` field access on a payload. -/
def ledStatusOf (d : SensorPayload) : Option Int :=
  (d.find? (fun p => p.1 = "ledStatus")).map (fun p => p.2)

/-- A stored latest reading: `sensorData[deviceId] = { ...data, timestamp }`. -/
structure StoredReading where
  payload : SensorPayload
  timestamp : Nat
deriving DecidableEq, Repr

/-- A history entry: `{ ...data, timestamp, deviceId }` as pushed onto
`historicalData[plantType]`. -/
structure HistEntry where
  payload : SensorPayload
  timestamp : Nat
  deviceId : String
deriving DecidableEq, Repr

/-- A command object as created by `/send-command`.  `timerArmed` models
whether the `setTimeout` timer was armed and its reference stored on the
object (`commandObj.timeoutRef = timeout`); it is cleared when
`clearTimeout` is called on the reference.  The identifier
`Date.now().toString()` is modelled as the millisecond clock value. -/
structure Command where
  id : Nat
  command : String
  value : Int
  deviceId : String
  duration : Int
  timestamp : Nat
  status : CommandStatus
  completedAt : Option Nat
  timeoutAt : Option Nat
  timerArmed : Bool
deriving DecidableEq, Repr

/-- A device state record.  Every field is optional because
`/get-commands` creates a bare `{}` record for an unknown device and only
then assigns `connectionStatus` and `lastSeen`. -/
structure DeviceState where
  light : Option Int
  lastWatered : Option Nat
  lastNutrients : Option Nat
  lastUpdated : Option Nat
  connectionStatus : Option String
  lastSeen : Option Nat
deriving DecidableEq, Repr

/-- The bare `{}` object assigned by `deviceStates[deviceId] || {}`. -/
def emptyDeviceState : DeviceState :=
  { light := none, lastWatered := none, lastNutrients := none,
    lastUpdated := none, connectionStatus := none, lastSeen := none }

/-- The whole in-memory store of the server: `sensorData`,
`historicalData`, `pendingCommands` and `deviceStates`.  The JS objects
are modelled as total functions with an absent-marking default (`none`
for object-valued maps, `[]` for the array-valued maps, where the source
always reads them through `|| []` or pushes after initialising). -/
structure ServerState where
  sensorData : String → Option StoredReading
  historicalData : String → List HistEntry
  pendingCommands : String → List Command
  deviceStates : String → Option DeviceState

/-- The static devicePlantMap of the source. -/
def devicePlantMap (deviceId : String) : Option String :=
  if deviceId = "esp32_1" then some "lettuce"
  else if deviceId = "esp32_2" then some "spinach"
  else none

/-- The device-state record built by `initializeDeviceStates` at startup
(all fields present, light off, nothing seen yet). -/
def initialDeviceState (now : Nat) : DeviceState :=
  { light := some 0, lastWatered := none, lastNutrients := none,
    lastUpdated := some now, connectionStatus := some "disconnected",
    lastSeen := none }

/-- The server state right after module initialisation: empty stores and
`initializeDeviceStates` run over the keys of `devicePlantMap`. -/
def initState (now : Nat) : ServerState :=
  { sensorData := fun _ => none
    historicalData := fun _ => []
    pendingCommands := fun _ => []
    deviceStates := fun d =>
      if d = "esp32_1" ∨ d = "esp32_2" then some (initialDeviceState now)
      else none }

/-- Functional update of a `deviceStates`-style map at one key. -/
def setAt {α : Type} (m : String → α) (k : String) (v : α) : String → α :=
  fun k' => if k' = k then v else m k'

/-- Result of `POST /send-command`: the three rejection responses and the
success response carrying the created command. -/
inductive SendResult where
  | badRequest
  | invalidCommand
  | serverError
  | ok (cmd : Command)
deriving DecidableEq, Repr

/-- The command object literal of `/send-command` before the timer is
armed: defaults `value` to 1 for ON_KINDS and 0 otherwise when no value
is supplied, and `duration || 3000` (an explicit 0 is falsy in JS and
also defaults). -/
def mkCommandObj (now : Nat) (deviceId command : String)
    (value : Option Int) (duration : Option Int) : Command :=
  { id := now
    command := command
    value := match value with
      | some v => v
      | none => if command ∈ ON_KINDS then 1 else 0
    deviceId := deviceId
    duration := match duration with
      | some d => if d = 0 then 3000 else d
      | none => 3000
    timestamp := now
    status := CommandStatus.pending
    completedAt := none
    timeoutAt := none
    timerArmed := false }

/-- The predictive device-state update of `/send-command`.  The source
writes through `deviceStates[deviceId].field`, which throws a TypeError
when the device has no state record; the caller checks for `none`
before invoking this. -/
def predictiveUpdate (ds : DeviceState) (command : String) (now : Nat) :
    DeviceState :=
  if command = "light_on" ∨ command = "led" then
    { ds with light := some 1 }
  else if command = "light_off" then
    { ds with light := some 0 }
  else if command = "water_plant" ∨ command = "water_pump" then
    { ds with lastWatered := some now }
  else if command = "add_nutrients" ∨ command = "fert_pump" then
    { ds with lastNutrients := some now }
  else ds

/-- Handler of `POST /send-command` (src/server.js lines 295-380).
Returns the HTTP result together with the state at response time.  The
command object is pushed onto the queue before the predictive state
update; for a device with no state record the predictive update throws,
the `catch` block answers 500, and the already-pushed command stays in
the queue with no timer armed.  On success the pushed object is the one
whose `timeoutRef` is later assigned, so the queued entry carries
`timerArmed := true`. -/
def sendCommand (s : ServerState) (now : Nat) (deviceId command : String)
    (value : Option Int) (duration : Option Int) : SendResult × ServerState :=
  if deviceId = "" ∨ command = "" then
    (SendResult.badRequest, s)
  else if command ∉ COMMAND_TYPES then
    (SendResult.invalidCommand, s)
  else
    let cmd := mkCommandObj now deviceId command value duration
    match s.deviceStates deviceId with
    | none =>
        -- push happened; predictive update throws; catch answers 500
        (SendResult.serverError,
         { s with pendingCommands :=
             setAt s.pendingCommands deviceId (s.pendingCommands deviceId ++ [cmd]) })
    | some ds =>
        let armed := { cmd with timerArmed := true }
        (SendResult.ok armed,
         { s with
             pendingCommands :=
               setAt s.pendingCommands deviceId (s.pendingCommands deviceId ++ [armed])
             deviceStates :=
               setAt s.deviceStates deviceId (some (predictiveUpdate ds command now)) })

/-- Update applied to the first queue entry satisfying `p`; entries after
it are untouched.  This models `findIndex` followed by an in-place write
at that single index. -/
def updateFirst (p : Command → Bool) (f : Command → Command) :
    List Command → List Command
  | [] => []
  | c :: cs => if p c then f c :: cs else c :: updateFirst p f cs

/-- The `setTimeout` callback armed by `/send-command` (src/server.js
lines 353-361): find the command by id; transition it to `timeout` only
if it is still pending. -/
def timeoutFire (s : ServerState) (now : Nat) (deviceId : String) (cmdId : Nat) :
    ServerState :=
  let q :=
    updateFirst (fun c => c.id = cmdId)
      (fun c =>
        if c.status = CommandStatus.pending then
          { c with status := CommandStatus.timeout, timeoutAt := some now }
        else c)
      (s.pendingCommands deviceId)
  { s with pendingCommands := setAt s.pendingCommands deviceId q }

/-- The per-command overwrite of the completion-report handler: set the
status to completed or failed per the `success` flag, stamp
`completedAt`, and clear the timeout timer, regardless of the current
status. -/
def reportOverwrite (now : Nat) (success : Bool) (c : Command) : Command :=
  { c with
      status := if success then CommandStatus.completed
                else CommandStatus.failed
      completedAt := some now
      timerArmed := false }

/-- Handler `socket.on('commandCompleted')` of the 2.3.x variant
(src/unnamed/part_003 lines 793-810): find the command by id and, with no
check of its current status, overwrite it with the reported outcome. -/
def commandCompleted (s : ServerState) (now : Nat) (deviceId : String)
    (cmdId : Nat) (success : Bool) : ServerState :=
  let q :=
    updateFirst (fun c => c.id = cmdId) (reportOverwrite now success)
      (s.pendingCommands deviceId)
  { s with pendingCommands := setAt s.pendingCommands deviceId q }

/-- A command as formatted for the ESP32 by `/get-commands`: the value is
recomputed from the kind (not read from the stored command), and the
stored duration is re-defaulted through `c.duration || 3000`. -/
structure FormattedCommand where
  command : String
  value : Int
  duration : Int
deriving DecidableEq, Repr

/-- The formatting step of `/get-commands`. -/
def formatCommand (c : Command) : FormattedCommand :=
  { command := c.command
    value := if c.command ∈ ON_KINDS then 1 else 0
    duration := if c.duration = 0 then 3000 else c.duration }

/-- The in-place marking applied by `/get-commands` to each pending
command as it is handed off. -/
def completeIfPending (now : Nat) (c : Command) : Command :=
  if c.status = CommandStatus.pending then
    { c with status := CommandStatus.completed, completedAt := some now }
  else c

/-- Result of `GET /get-commands/:deviceId`. -/
inductive GetResult where
  | badRequest
  | ok (cmds : List FormattedCommand)
deriving DecidableEq, Repr

/-- Handler of `GET /get-commands/:deviceId` (src/server.js lines
145-199).  Marks the device connected (creating a bare record via
`deviceStates[deviceId] || {}` when absent), filters the pending
commands, marks each of them completed in place, and answers with their
formatted images. -/
def getCommands (s : ServerState) (now : Nat) (deviceId : String) :
    GetResult × ServerState :=
  if deviceId = "" then
    (GetResult.badRequest, s)
  else
    let ds0 := (s.deviceStates deviceId).getD emptyDeviceState
    let ds := { ds0 with connectionStatus := some "connected", lastSeen := some now }
    let commands := s.pendingCommands deviceId
    let pending := commands.filter (fun c => c.status = CommandStatus.pending)
    let newQueue := commands.map (completeIfPending now)
    (GetResult.ok (pending.map formatCommand),
     { s with
         deviceStates := setAt s.deviceStates deviceId (some ds)
         pendingCommands := setAt s.pendingCommands deviceId newQueue })

/-- The history trim of `/update`: `slice(-100)` once the pushed list
exceeds 100 entries. -/
def trimHist (l : List HistEntry) : List HistEntry :=
  if l.length > 100 then l.drop (l.length - 100) else l

/-- Result of `POST /update`: the 400 rejection, or success carrying the
resolved plant type under which the reading was stored. -/
inductive UpdateResult where
  | badRequest
  | ok (plantType : String)
deriving DecidableEq, Repr

/-- Handler of `POST /update` (src/server.js lines 202-292).  A missing
`deviceId` or `data` is rejected with 400 and no state change; otherwise
the device state is created or marked connected, the latest reading is
overwritten, `ledStatus` is projected into the device state, and the
timestamped reading is appended to the history of the resolved plant type
(`devicePlantMap[deviceId] || 'unknown'`) with the 100-entry trim. -/
def update (s : ServerState) (now : Nat) (deviceId : String)
    (data : Option SensorPayload) : UpdateResult × ServerState :=
  if deviceId = "" ∨ data = none then
    (UpdateResult.badRequest, s)
  else
    let payload := data.getD []
    let ds0 :=
      match s.deviceStates deviceId with
      | none =>
          { light := some 0, lastWatered := none, lastNutrients := none,
            lastUpdated := some now, connectionStatus := some "connected",
            lastSeen := some now : DeviceState }
      | some ds =>
          { ds with connectionStatus := some "connected", lastSeen := some now }
    let ds1 :=
      match ledStatusOf payload with
      | some v => { ds0 with light := some v, lastUpdated := some now }
      | none => { ds0 with lastUpdated := some now }
    let plantType := (devicePlantMap deviceId).getD "unknown"
    let entry : HistEntry :=
      { payload := payload, timestamp := now, deviceId := deviceId }
    let hist := trimHist (s.historicalData plantType ++ [entry])
    (UpdateResult.ok plantType,
     { s with
         sensorData :=
           setAt s.sensorData deviceId (some { payload := payload, timestamp := now })
         deviceStates := setAt s.deviceStates deviceId (some ds1)
         historicalData := setAt s.historicalData plantType hist })

/-- Observation helper: the status of the command with the given id in a
device's queue. -/
def statusAt (s : ServerState) (d : String) (cid : Nat) : Option CommandStatus :=
  ((s.pendingCommands d).find? (fun c => c.id = cid)).map (fun c => c.status)

/-- A server state holding a single pending `light_on` command for
`esp32_1`, submitted at clock 1000. -/
def sSubmit1 : ServerState :=
  (sendCommand (initState 0) 1000 "esp32_1" "light_on" none none).2

/-- The state obtained by running 150 sequential telemetry ingests for
`esp32_1` (group lettuce) with distinct readings. -/
def run150 : ServerState :=
  (List.range 150).foldl
    (fun s i => (update s (1000 + i) "esp32_1" (some [("m", Int.ofNat i)])).2)
    (initState 0)

/-- The history entry the i-th ingest of `run150` produces. -/
def expectedEntry (i : Nat) : HistEntry :=
  { payload := [("m", Int.ofNat i)], timestamp := 1000 + i, deviceId := "esp32_1" }

/-- A queue transformation freezes terminal commands when every entry
whose status is not pending reappears unchanged at its position. -/
def terminalsFrozen (q q' : List Command) : Prop :=
  ∀ (i : Nat) (c : Command),
    q[i]? = some c → c.status ≠ CommandStatus.pending → q'[i]? = some c

/-- The concrete command created by submitting `light_on` for `esp32_1`
at clock 1000 over the fresh server state. -/
def cmdA : Command :=
  { id := 1000, command := "light_on", value := 1, deviceId := "esp32_1",
    duration := 3000, timestamp := 1000, status := CommandStatus.pending,
    completedAt := none, timeoutAt := none, timerArmed := true }

/-- The concrete command created by submitting `light_off` for `esp32_1`
at clock 1001. -/
def cmdB : Command :=
  { id := 1001, command := "light_off", value := 0, deviceId := "esp32_1",
    duration := 3000, timestamp := 1001, status := CommandStatus.pending,
    completedAt := none, timeoutAt := none, timerArmed := true }

/-- An updateFirst whose function fixes non-pending commands leaves every
non-pending entry unchanged at its position. -/
theorem updateFirst_getElem_frozen (p : Command → Bool) (f : Command → Command)
    (hf : ∀ c, c.status ≠ CommandStatus.pending → f c = c) :
    ∀ (q : List Command) (i : Nat) (c : Command), q[i]? = some c →
      c.status ≠ CommandStatus.pending → (updateFirst p f q)[i]? = some c := by
  intro q
  induction q with
  | nil => intro i c hc _; simp at hc
  | cons c0 cs ih =>
      intro i c hc hst
      cases i with
      | zero =>
          simp at hc
          subst hc
          by_cases hp : p c0
          · simp [updateFirst, hp, hf c0 hst]
          · simp [updateFirst, hp]
      | succ j =>
          simp at hc
          by_cases hp : p c0
          · simpa [updateFirst, hp] using hc
          · simpa [updateFirst, hp] using ih j c hc hst

/-- Applying updateFirst twice with an idempotent, match-preserving
function is the same as applying it once. -/
theorem updateFirst_idem (p : Command → Bool) (f : Command → Command)
    (hp : ∀ c, p (f c) = p c) (hff : ∀ c, f (f c) = f c) :
    ∀ q : List Command, updateFirst p f (updateFirst p f q) = updateFirst p f q := by
  intro q
  induction q with
  | nil => rfl
  | cons c0 cs ih =>
      by_cases h : p c0
      · simp [updateFirst, h, hp, hff]
      · simp [updateFirst, h, ih]

/-- Marking a command completed-if-pending never leaves it pending. -/
theorem completeIfPending_status_ne (now : Nat) (c : Command) :
    (completeIfPending now c).status ≠ CommandStatus.pending := by
  unfold completeIfPending
  split
  · simp
  · simpa using (by assumption)

/-- Every member of the command-kind enumeration is a nonempty string. -/
theorem mem_COMMAND_TYPES_ne_empty {k : String} (h : k ∈ COMMAND_TYPES) :
    k ≠ "" := by
  intro he
  subst he
  exact absurd h (by decide)

/-- A trimmed history of at most 101 entries has at most 100 entries. -/
theorem trimHist_length_le {l : List HistEntry} (h : l.length ≤ 101) :
    (trimHist l).length ≤ 100 := by
  unfold trimHist
  split
  · simp only [List.length_drop]
    omega
  · omega

/-- A successful `/send-command` response carries a command whose id is
the clock reading at submission. -/
theorem sendCommand_ok_id {s : ServerState} {t : Nat} {d k : String}
    {v du : Option Int} {c : Command}
    (h : (sendCommand s t d k v du).1 = SendResult.ok c) : c.id = t := by
  unfold sendCommand at h
  by_cases h0 : d = "" ∨ k = ""
  · simp [h0] at h
  · by_cases h1 : k ∈ COMMAND_TYPES
    · simp [h0, h1] at h
      cases hds : s.deviceStates d with
      | none => rw [hds] at h; simp at h
      | some ds =>
          rw [hds] at h
          simp at h
          rw [← h]
          simp [mkCommandObj]
    · simp [h0, h1] at h

/-- Claim C1 counterexample: the status sequence is not monotone.  A
`light_on` command for `esp32_1` submitted at clock 1000 is moved to the
terminal status `timeout` by the timer callback at clock 301000, and the
subsequent completion report (the `commandCompleted` handler, which does
not re-check the pending status) then moves it from `timeout` to
`completed` — a terminal-to-terminal transition, status sequence
`[pending, timeout, completed]`. -/
theorem claim1_counterexample :
    statusAt (timeoutFire sSubmit1 301000 "esp32_1" 1000) "esp32_1" 1000
      = some CommandStatus.timeout
    ∧ statusAt
        (commandCompleted (timeoutFire sSubmit1 301000 "esp32_1" 1000)
          302000 "esp32_1" 1000 true)
        "esp32_1" 1000
      = some CommandStatus.completed := by
  constructor
  · decide
  · decide

/-- Claim C1, amended: the timeout callback and the pull-delivery drain
do re-check the pending status and therefore never move a command out of
a terminal status (at every queue position, a non-pending command is
unchanged by either operation); only the outcome-report handler lacks
this guard. -/
theorem claim1_guarded_ops_freeze_terminals (s : ServerState) (now : Nat)
    (d : String) (cid : Nat) (d' : String) :
    terminalsFrozen (s.pendingCommands d')
      ((timeoutFire s now d cid).pendingCommands d')
    ∧ terminalsFrozen (s.pendingCommands d')
      ((getCommands s now d).2.pendingCommands d') := by
  constructor
  · intro i c hc hst
    unfold timeoutFire
    by_cases hd : d' = d
    · subst hd
      simp only [setAt, if_pos rfl]
      refine updateFirst_getElem_frozen _ _ ?_ _ i c hc hst
      intro c' hc'
      simp [if_neg hc']
    · simpa [setAt, hd] using hc
  · intro i c hc hst
    have hfix : completeIfPending now c = c := by
      unfold completeIfPending
      simp [if_neg hst]
    unfold getCommands
    by_cases h0 : d = ""
    · simpa [h0] using hc
    · by_cases hd : d' = d
      · subst hd
        simp [h0, setAt, List.getElem?_map, hc, hfix]
      · simpa [h0, setAt, hd] using hc

/-- Claim C1 witness: the amended freeze property instantiated on the
concrete one-command state. -/
theorem claim1_witness :
    terminalsFrozen (sSubmit1.pendingCommands "esp32_1")
      ((timeoutFire sSubmit1 301000 "esp32_1" 1000).pendingCommands "esp32_1")
    ∧ terminalsFrozen (sSubmit1.pendingCommands "esp32_1")
      ((getCommands sSubmit1 301000 "esp32_1").2.pendingCommands "esp32_1") :=
  claim1_guarded_ops_freeze_terminals sSubmit1 301000 "esp32_1" 1000 "esp32_1"

/-- Claim C2 counterexample: the completion-report path is not a no-op on
a command that is already terminal.  The command submitted at clock 1000
is reported completed at clock 2000; a second report for the same device
and command id with `success = false` at clock 3000 then changes its
status from `completed` to `failed`, so the two calls do not yield the
same terminal command. -/
theorem claim2_counterexample :
    statusAt (commandCompleted sSubmit1 2000 "esp32_1" 1000 true) "esp32_1" 1000
      = some CommandStatus.completed
    ∧ statusAt
        (commandCompleted (commandCompleted sSubmit1 2000 "esp32_1" 1000 true)
          3000 "esp32_1" 1000 false)
        "esp32_1" 1000
      = some CommandStatus.failed := by
  constructor
  · decide
  · decide

/-- Claim C2, amended: the completion report overwrites a found command's
status and completion timestamp unconditionally, even when the command is
already terminal; only repeating the identical report (same success flag
at the same clock reading) leaves the server state unchanged. -/
theorem claim2_report_idempotent_same_call (s : ServerState) (now : Nat)
    (d : String) (cid : Nat) (b : Bool) :
    commandCompleted (commandCompleted s now d cid b) now d cid b
      = commandCompleted s now d cid b := by
  simp only [commandCompleted]
  congr 1
  funext k'
  by_cases hk : k' = d
  · subst hk
    simp only [setAt, if_pos]
    exact updateFirst_idem (fun c => c.id = cid) (reportOverwrite now b)
      (fun c => rfl) (fun c => rfl) _
  · simp [setAt, hk]

/-- Claim C3: `GET /get-commands/:deviceId` answers with exactly the
pending commands of that device in queue (submission) order, as a side
effect marks every pending command of the queue completed, and an
immediately following call for the same device answers with an empty
sequence. -/
theorem claim3_drainPending (s : ServerState) (now now' : Nat) (d : String)
    (h : d ≠ "") :
    (getCommands s now d).1
      = GetResult.ok (((s.pendingCommands d).filter
          (fun c => c.status = CommandStatus.pending)).map formatCommand)
    ∧ (getCommands s now d).2.pendingCommands d
      = (s.pendingCommands d).map (completeIfPending now)
    ∧ (getCommands (getCommands s now d).2 now' d).1 = GetResult.ok [] := by
  refine ⟨?_, ?_, ?_⟩
  · simp [getCommands, h]
  · simp [getCommands, h, setAt]
  · have hnil : ((s.pendingCommands d).map (completeIfPending now)).filter
        (fun c => c.status = CommandStatus.pending) = [] := by
      rw [List.filter_eq_nil_iff]
      intro c hc
      rcases List.mem_map.mp hc with ⟨c0, _, rfl⟩
      simpa using completeIfPending_status_ne now c0
    simp [getCommands, h, setAt, hnil]

/-- Claim C3 witness: draining the one-command state returns the single
pending command formatted, marks it completed, and a second drain is
empty. -/
theorem claim3_witness :
    ("esp32_1" : String) ≠ ""
    ∧ ((getCommands sSubmit1 2000 "esp32_1").1
        = GetResult.ok (((sSubmit1.pendingCommands "esp32_1").filter
            (fun c => c.status = CommandStatus.pending)).map formatCommand)
      ∧ (getCommands sSubmit1 2000 "esp32_1").2.pendingCommands "esp32_1"
        = (sSubmit1.pendingCommands "esp32_1").map (completeIfPending 2000)
      ∧ (getCommands (getCommands sSubmit1 2000 "esp32_1").2 2001 "esp32_1").1
        = GetResult.ok []) :=
  ⟨by decide, claim3_drainPending sSubmit1 2000 2001 "esp32_1" (by decide)⟩

set_option maxRecDepth 1000000 in
/-- Claim C4: every telemetry ingest keeps every group's history within
the 100-entry bound (assuming it was within the bound before, as it is
from startup on), and ingesting 150 sequential readings leaves exactly
the most recent 100 in insertion order. -/
theorem claim4_history_bounded :
    (∀ (s : ServerState) (now : Nat) (d : String) (data : Option SensorPayload)
        (p : String), (s.historicalData p).length ≤ 100 →
        ((update s now d data).2.historicalData p).length ≤ 100)
    ∧ run150.historicalData "lettuce"
        = ((List.range 150).drop 50).map expectedEntry := by
  constructor
  · intro s now d data p h
    unfold update
    split
    · simpa using h
    · simp only [setAt]
      by_cases hp : p = (devicePlantMap d).getD "unknown"
      · simp only [hp, if_pos]
        apply trimHist_length_le
        have := h
        rw [hp] at this
        simp [List.length_append]
        omega
      · simpa [hp] using h
  · decide

/-- Claim C4 witness: the bound instantiated on the initial state, plus
the closed 150-ingest equality from the theorem itself. -/
theorem claim4_witness :
    ((initState 0).historicalData "lettuce").length ≤ 100
    ∧ (((update (initState 0) 5 "esp32_1"
          (some [("m", 1)])).2.historicalData "lettuce").length ≤ 100) :=
  ⟨by decide,
   claim4_history_bounded.1 (initState 0) 5 "esp32_1" (some [("m", 1)])
     "lettuce" (by decide)⟩

/-- Claim C5: submitting a command whose kind is outside the closed
enumeration is rejected synchronously (never a success response) and the
server state is completely unchanged — no command enqueued, no timer
armed, device states untouched. -/
theorem claim5_invalid_kind_rejected (s : ServerState) (now : Nat)
    (d k : String) (v du : Option Int) (h : k ∉ COMMAND_TYPES) :
    (sendCommand s now d k v du).2 = s
    ∧ ∀ c, (sendCommand s now d k v du).1 ≠ SendResult.ok c := by
  unfold sendCommand
  by_cases h0 : d = "" ∨ k = ""
  · simp [h0]
  · simp [h0, h]

/-- Claim C5 witness: the unknown kind `fly_drone` is rejected over the
fresh state with no state change. -/
theorem claim5_witness :
    "fly_drone" ∉ COMMAND_TYPES
    ∧ ((sendCommand (initState 0) 5 "esp32_1" "fly_drone" none none).2
        = initState 0
      ∧ ∀ c, (sendCommand (initState 0) 5 "esp32_1" "fly_drone" none none).1
          ≠ SendResult.ok c) :=
  ⟨by decide,
   claim5_invalid_kind_rejected (initState 0) 5 "esp32_1" "fly_drone" none none
     (by decide)⟩

/-- Claim C6: every submitted command with a valid kind is appended to
the device's queue with the source's defaults — value 1 for the kinds in
ON_KINDS and 0 otherwise when no value is supplied, the supplied value
verbatim otherwise, and duration 3000 when none is supplied. -/
theorem claim6_command_defaults (s : ServerState) (now : Nat) (d k : String)
    (v du : Option Int) (h1 : d ≠ "") (h2 : k ∈ COMMAND_TYPES) :
    ∃ c, (sendCommand s now d k v du).2.pendingCommands d
        = s.pendingCommands d ++ [c]
      ∧ c.command = k
      ∧ (v = none → c.value = if k ∈ ON_KINDS then 1 else 0)
      ∧ (∀ x, v = some x → c.value = x)
      ∧ (du = none → c.duration = 3000) := by
  have hk : k ≠ "" := mem_COMMAND_TYPES_ne_empty h2
  unfold sendCommand
  simp only [h1, hk, or_self, if_neg, h2, not_true_eq_false, ite_false,
    not_false_eq_true, false_or, or_false]
  cases hds : s.deviceStates d with
  | none =>
      refine ⟨mkCommandObj now d k v du, by simp [setAt], rfl, ?_, ?_, ?_⟩
      · intro hv; simp [mkCommandObj, hv]
      · intro x hv; simp [mkCommandObj, hv]
      · intro hdu; simp [mkCommandObj, hdu]
  | some ds =>
      refine ⟨{ mkCommandObj now d k v du with timerArmed := true },
        by simp [setAt], rfl, ?_, ?_, ?_⟩
      · intro hv; simp [mkCommandObj, hv]
      · intro x hv; simp [mkCommandObj, hv]
      · intro hdu; simp [mkCommandObj, hdu]

/-- Claim C6 witness: submitting `water_pump` with no explicit value or
duration appends a command whose value defaults through ON_KINDS (to 1)
and whose duration defaults to 3000. -/
theorem claim6_witness :
    ("esp32_1" : String) ≠ "" ∧ "water_pump" ∈ COMMAND_TYPES
    ∧ ∃ c, (sendCommand (initState 0) 7 "esp32_1" "water_pump"
          none none).2.pendingCommands "esp32_1"
        = (initState 0).pendingCommands "esp32_1" ++ [c]
      ∧ c.command = "water_pump"
      ∧ ((none : Option Int) = none →
          c.value = if "water_pump" ∈ ON_KINDS then 1 else 0)
      ∧ (∀ x, (none : Option Int) = some x → c.value = x)
      ∧ ((none : Option Int) = none → c.duration = 3000) :=
  ⟨by decide, by decide,
   claim6_command_defaults (initState 0) 7 "esp32_1" "water_pump" none none
     (by decide) (by decide)⟩

/-- Claim C7: a telemetry ingest for a device identifier outside the
device-to-plant mapping is accepted — the handler answers success with
the group resolved to unknown, stores the reading as the device's latest,
appends it to the unknown group's history, and leaves the device with a
state record (no crash). -/
theorem claim7_unmapped_device_accepted (s : ServerState) (now : Nat)
    (d : String) (payload : SensorPayload) (h1 : d ≠ "")
    (h2 : devicePlantMap d = none) :
    (update s now d (some payload)).1 = UpdateResult.ok "unknown"
    ∧ (update s now d (some payload)).2.sensorData d
        = some { payload := payload, timestamp := now }
    ∧ (update s now d (some payload)).2.historicalData "unknown"
        = trimHist (s.historicalData "unknown"
            ++ [{ payload := payload, timestamp := now, deviceId := d }])
    ∧ ((update s now d (some payload)).2.deviceStates d).isSome := by
  refine ⟨?_, ?_, ?_, ?_⟩ <;> simp [update, h1, h2, setAt]

/-- Claim C7 witness: telemetry from the unmapped `esp32_9` is accepted
into the unknown group over the fresh state. -/
theorem claim7_witness :
    ("esp32_9" : String) ≠ "" ∧ devicePlantMap "esp32_9" = none
    ∧ ((update (initState 0) 5 "esp32_9" (some [("soil", 42)])).1
        = UpdateResult.ok "unknown"
      ∧ (update (initState 0) 5 "esp32_9" (some [("soil", 42)])).2.sensorData
          "esp32_9" = some { payload := [("soil", 42)], timestamp := 5 }
      ∧ (update (initState 0) 5 "esp32_9"
          (some [("soil", 42)])).2.historicalData "unknown"
        = trimHist ((initState 0).historicalData "unknown"
            ++ [{ payload := [("soil", 42)], timestamp := 5,
                  deviceId := "esp32_9" }])
      ∧ ((update (initState 0) 5 "esp32_9"
          (some [("soil", 42)])).2.deviceStates "esp32_9").isSome) :=
  ⟨by decide, by decide,
   claim7_unmapped_device_accepted (initState 0) 5 "esp32_9" [("soil", 42)]
     (by decide) (by decide)⟩

/-- Claim C8 counterexample: identifiers are not unique.  Two different
commands (`light_on` then `light_off`) submitted for `esp32_1` during the
same millisecond (clock reading 1000) both receive identifier 1000, so
the later one's identifier is not strictly greater. -/
theorem claim8_counterexample :
    ((sendCommand sSubmit1 1000 "esp32_1" "light_off"
        none none).2.pendingCommands "esp32_1").map (fun c => c.id)
      = [1000, 1000]
    ∧ ((sendCommand sSubmit1 1000 "esp32_1" "light_off"
        none none).2.pendingCommands "esp32_1").map (fun c => c.command)
      = ["light_on", "light_off"] := by
  constructor
  · decide
  · decide

/-- Claim C8, amended: a command's identifier equals the millisecond
clock reading at its submission, so identifiers are non-decreasing over
time and strictly increase — and in particular are distinct — exactly
when the two submissions happen in distinct milliseconds. -/
theorem claim8_ids_monotone_across_millis (s1 s2 : ServerState)
    (t1 t2 : Nat) (d1 k1 d2 k2 : String) (v1 du1 v2 du2 : Option Int)
    (c1 c2 : Command)
    (h1 : (sendCommand s1 t1 d1 k1 v1 du1).1 = SendResult.ok c1)
    (h2 : (sendCommand s2 t2 d2 k2 v2 du2).1 = SendResult.ok c2)
    (hlt : t1 < t2) : c1.id < c2.id := by
  rw [sendCommand_ok_id h1, sendCommand_ok_id h2]
  exact hlt

/-- Claim C8 witness: submissions at clocks 1000 and 1001 produce the
concrete commands `cmdA` and `cmdB` with strictly increasing ids. -/
theorem claim8_witness :
    (sendCommand (initState 0) 1000 "esp32_1" "light_on" none none).1
      = SendResult.ok cmdA
    ∧ (sendCommand (initState 0) 1001 "esp32_1" "light_off" none none).1
      = SendResult.ok cmdB
    ∧ 1000 < 1001
    ∧ cmdA.id < cmdB.id :=
  ⟨by decide, by decide, by decide,
   claim8_ids_monotone_across_millis (initState 0) (initState 0) 1000 1001
     "esp32_1" "light_on" "esp32_1" "light_off" none none none none cmdA cmdB
     (by decide) (by decide) (by decide)⟩

/-- Claim C9: submitting a valid-kind command for a device with no entry
in the device-state map answers 500, yet the queue has already gained the
new pending command, with no timeout timer armed, and the device-state
projection (and all other stores) are untouched — the operation is not
atomic on this error path. -/
theorem claim9_push_then_fail (s : ServerState) (now : Nat) (d k : String)
    (v du : Option Int) (h1 : d ≠ "") (h2 : k ∈ COMMAND_TYPES)
    (h3 : s.deviceStates d = none) :
    (sendCommand s now d k v du).1 = SendResult.serverError
    ∧ (sendCommand s now d k v du).2.pendingCommands d
        = s.pendingCommands d ++ [mkCommandObj now d k v du]
    ∧ (mkCommandObj now d k v du).status = CommandStatus.pending
    ∧ (mkCommandObj now d k v du).timerArmed = false
    ∧ (sendCommand s now d k v du).2.deviceStates = s.deviceStates
    ∧ (sendCommand s now d k v du).2.sensorData = s.sensorData
    ∧ (sendCommand s now d k v du).2.historicalData = s.historicalData := by
  have hk : k ≠ "" := mem_COMMAND_TYPES_ne_empty h2
  unfold sendCommand
  rw [h3]
  refine ⟨?_, ?_, rfl, rfl, ?_, ?_, ?_⟩ <;> simp [h1, hk, h2, setAt]

/-- Claim C9 witness: submitting `light_on` for the unknown device
`esp32_99` over the fresh state fails with 500 after enqueuing the
pending command. -/
theorem claim9_witness :
    ("esp32_99" : String) ≠ "" ∧ "light_on" ∈ COMMAND_TYPES
    ∧ (initState 0).deviceStates "esp32_99" = none
    ∧ ((sendCommand (initState 0) 9 "esp32_99" "light_on" none none).1
        = SendResult.serverError
      ∧ (sendCommand (initState 0) 9 "esp32_99"
          "light_on" none none).2.pendingCommands "esp32_99"
        = (initState 0).pendingCommands "esp32_99"
            ++ [mkCommandObj 9 "esp32_99" "light_on" none none]
      ∧ (mkCommandObj 9 "esp32_99" "light_on" none none).status
        = CommandStatus.pending
      ∧ (mkCommandObj 9 "esp32_99" "light_on" none none).timerArmed = false
      ∧ (sendCommand (initState 0) 9 "esp32_99"
          "light_on" none none).2.deviceStates = (initState 0).deviceStates
      ∧ (sendCommand (initState 0) 9 "esp32_99"
          "light_on" none none).2.sensorData = (initState 0).sensorData
      ∧ (sendCommand (initState 0) 9 "esp32_99"
          "light_on" none none).2.historicalData
        = (initState 0).historicalData) :=
  ⟨by decide, by decide, by decide,
   claim9_push_then_fail (initState 0) 9 "esp32_99" "light_on" none none
     (by decide) (by decide) (by decide)⟩

/-- Claim C10: every pull of `/get-commands/:deviceId` rewrites the
polled device's registry entry to connection status connected with
last-seen set to the current time (creating a fresh record, bare except
for these two fields, when the device was unknown) and leaves every other
device's state untouched. -/
theorem claim10_connection_side_effect (s : ServerState) (now : Nat)
    (d : String) (h : d ≠ "") :
    (getCommands s now d).2.deviceStates d
      = some { (s.deviceStates d).getD emptyDeviceState with
               connectionStatus := some "connected", lastSeen := some now }
    ∧ ∀ d', d' ≠ d → (getCommands s now d).2.deviceStates d' = s.deviceStates d' := by
  constructor
  · simp [getCommands, h, setAt]
  · intro d' hd'
    simp [getCommands, h, setAt, hd']

/-- Claim C10 witness: polling commands for the previously unknown device
`esp32_7` creates its bare connected record and leaves `esp32_1`'s state
alone. -/
theorem claim10_witness :
    ("esp32_7" : String) ≠ ""
    ∧ ((getCommands (initState 0) 42 "esp32_7").2.deviceStates "esp32_7"
        = some { ((initState 0).deviceStates "esp32_7").getD emptyDeviceState
                 with connectionStatus := some "connected", lastSeen := some 42 }
      ∧ ∀ d', d' ≠ "esp32_7" →
          (getCommands (initState 0) 42 "esp32_7").2.deviceStates d'
            = (initState 0).deviceStates d') :=
  ⟨by decide, claim10_connection_side_effect (initState 0) 42 "esp32_7" (by decide)⟩

end SmartAgri
